import Mathlib

/-!
Verification of the KernelSU sucompat interception layer
(`drivers/input/fingerprint/goodix/gf_spi.h`) and the SUSFS concealment
registries (`fs/susfs.c`) of the android_kernel_xiaomi_vince repository,
as a shallow embedding in Lean 4.

Userspace memory, the allow-list lookup (`allowlist.c` is external to the
sources verified here) and pathname resolution (`kern_path`) are modelled
as oracle fields of an environment record; the control flow of each
embedded function follows the C source line by line.
-/

namespace Sucompat

/-- A userspace pointer: NULL or a byte address. -/
inductive UPtr where
  | null : UPtr
  | addr (a : Nat) : UPtr
deriving DecidableEq, Repr

/-- The kernel-side environment a sucompat call runs in: the global
`ksu_sucompat_non_kp` flag, the external allow-list predicate
`ksu_is_allow_uid`, the caller's uid (`current_uid().val`), the userspace
memory contents, fault oracles for the two user-copy primitives, the
success oracle for `copy_to_user`, and `current_user_stack_pointer()`. -/
structure KernelEnv where
  sucompat_non_kp : Bool
  allow_uid : Nat → Bool
  uid : Nat
  userMem : Nat → Nat
  nofaultOk : Nat → Nat → Bool
  slowOk : Nat → Nat → Bool
  stackWriteOk : Bool
  stackPtr : Nat

/-- Read `n` bytes starting at address `a` from a memory. -/
def readMem (m : Nat → Nat) (a n : Nat) : List Nat :=
  (List.range n).map (fun i => m (a + i))

/-- Overwrite memory `m` with the bytes `d` starting at address `a`. -/
def writeBytes (m : Nat → Nat) (a : Nat) (d : List Nat) : Nat → Nat :=
  fun x => if a ≤ x ∧ x < a + d.length then d.getD (x - a) 0 else m x

/-- `ksu_copy_from_user_nofault`: fast fault-tolerant user copy; succeeds
exactly when the nofault oracle allows the access (a NULL source always
faults). Returns the bytes read, or `none` on fault. -/
def ksu_copy_from_user_nofault (env : KernelEnv) (p : UPtr) (n : Nat) :
    Option (List Nat) :=
  match p with
  | .null => none
  | .addr a => if env.nofaultOk a n then some (readMem env.userMem a n) else none

/-- `copy_from_user`: the slower guaranteed copy path; succeeds exactly when
the slow-path oracle allows the access (a NULL source always faults). -/
def copy_from_user (env : KernelEnv) (p : UPtr) (n : Nat) : Option (List Nat) :=
  match p with
  | .null => none
  | .addr a => if env.slowOk a n then some (readMem env.userMem a n) else none

/-- `ksu_copy_from_user_retry`: try the nofault copy first; only on its
failure fall back to `copy_from_user`. -/
def ksu_copy_from_user_retry (env : KernelEnv) (p : UPtr) (n : Nat) :
    Option (List Nat) :=
  match ksu_copy_from_user_nofault env p n with
  | some bs => some bs
  | none => copy_from_user env p n

/-- Byte values of a string literal. -/
def strBytes (s : String) : List Nat :=
  s.toList.map Char.toNat

/-- `SU_PATH` = "/system/bin/su" (the trigger path, without terminator). -/
def SU_PATH : List Nat := strBytes "/system/bin/su"

/-- The local array `su[] = SU_PATH` including its NUL terminator;
`sizeof(su)` is its length, 15. -/
def su_arr : List Nat := SU_PATH ++ [0]

/-- The array `sh_path[] = "/system/bin/sh"` with terminator. -/
def sh_path_arr : List Nat := strBytes "/system/bin/sh" ++ [0]

/-- Modelled from the spec: `KSUD_PATH`, the privileged helper's path, is
defined in `ksud.h`, which is not among the sources; the spec calls it only
"a privileged helper's path", so its exact bytes are a representative
constant here. -/
def ksud_path_arr : List Nat := strBytes "/data/adb/ksud" ++ [0]

/-- `userspace_stack_buffer`: stage `d` just below the user stack pointer
via `copy_to_user`; on copy failure return NULL and leave memory unchanged.
Returns the resulting pointer together with the resulting user memory. -/
def userspace_stack_buffer (env : KernelEnv) (d : List Nat) :
    UPtr × (Nat → Nat) :=
  if env.stackWriteOk then
    (.addr (env.stackPtr - d.length), writeBytes env.userMem (env.stackPtr - d.length) d)
  else
    (.null, env.userMem)

/-- `sh_user_path`: stage "/system/bin/sh" in the caller's stack. -/
def sh_user_path (env : KernelEnv) : UPtr × (Nat → Nat) :=
  userspace_stack_buffer env sh_path_arr

/-- `ksud_user_path`: stage the privileged helper path in the caller's stack. -/
def ksud_user_path (env : KernelEnv) : UPtr × (Nat → Nat) :=
  userspace_stack_buffer env ksud_path_arr

/-- Outcome of a sucompat handler: the `int` return value, the contents of
`*filename_user` after the call (`none` when `filename_user` itself was
NULL), whether `ksu_escape_to_root` ran, and the final user memory. -/
structure SucompatResult where
  ret : Int
  filename : Option UPtr
  escalated : Bool
  userMem : Nat → Nat

/-- `ksu_sucompat_common`: the shared body of the three interception
handlers, translated branch by branch from the C source. `filename_user`
is `none` when the C argument is NULL, otherwise `some` of the pointer
stored at it. -/
def ksu_sucompat_common (env : KernelEnv) (filename_user : Option UPtr)
    (escalate : Bool) : SucompatResult :=
  if !env.sucompat_non_kp then ⟨0, filename_user, false, env.userMem⟩
  else if !env.allow_uid env.uid then ⟨0, filename_user, false, env.userMem⟩
  else
    match filename_user with
    | none => ⟨0, none, false, env.userMem⟩
    | some fp =>
      match ksu_copy_from_user_retry env fp (su_arr.length + 1) with
      | none => ⟨0, some fp, false, env.userMem⟩
      | some bytes =>
        let path := bytes.set su_arr.length 0
        if path.take su_arr.length ≠ su_arr then ⟨0, some fp, false, env.userMem⟩
        else if escalate then
          ⟨0, some (ksud_user_path env).1, true, (ksud_user_path env).2⟩
        else
          ⟨0, some (sh_user_path env).1, false, (sh_user_path env).2⟩

/-- `ksu_handle_faccessat` (`dfd`, `mode`, flags are unused by the body). -/
def ksu_handle_faccessat (env : KernelEnv) (filename_user : Option UPtr) :
    SucompatResult :=
  ksu_sucompat_common env filename_user false

/-- `ksu_handle_stat`. -/
def ksu_handle_stat (env : KernelEnv) (filename_user : Option UPtr) :
    SucompatResult :=
  ksu_sucompat_common env filename_user false

/-- `ksu_handle_execve_sucompat`. -/
def ksu_handle_execve_sucompat (env : KernelEnv) (filename_user : Option UPtr) :
    SucompatResult :=
  ksu_sucompat_common env filename_user true

/-- A concrete environment whose caller is not allow-listed. -/
def envDenied : KernelEnv :=
  { sucompat_non_kp := true
    allow_uid := fun _ => false
    uid := 12345
    userMem := fun _ => 0
    nofaultOk := fun _ _ => true
    slowOk := fun _ _ => true
    stackWriteOk := true
    stackPtr := 4096 }

end Sucompat

namespace Sucompat

/-- C1: when `ksu_is_allow_uid(current_uid().val)` is false, each of the
three interception handlers returns 0, leaves `*filename_user` exactly as
it was, does not escalate, and leaves user memory untouched. -/
theorem c1_not_allowed_pass_through (env : KernelEnv) (fu : Option UPtr)
    (h : env.allow_uid env.uid = false) :
    ksu_handle_faccessat env fu = ⟨0, fu, false, env.userMem⟩ ∧
    ksu_handle_stat env fu = ⟨0, fu, false, env.userMem⟩ ∧
    ksu_handle_execve_sucompat env fu = ⟨0, fu, false, env.userMem⟩ := by
  refine ⟨?_, ?_, ?_⟩ <;>
    simp [ksu_handle_faccessat, ksu_handle_stat, ksu_handle_execve_sucompat,
      ksu_sucompat_common, h]

/-- C1 witness: a denied caller passes through at a concrete input. -/
theorem c1_not_allowed_pass_through_witness :
    ksu_handle_faccessat envDenied (some (.addr 77)) =
      ⟨0, some (.addr 77), false, envDenied.userMem⟩ ∧
    ksu_handle_stat envDenied (some (.addr 77)) =
      ⟨0, some (.addr 77), false, envDenied.userMem⟩ ∧
    ksu_handle_execve_sucompat envDenied (some (.addr 77)) =
      ⟨0, some (.addr 77), false, envDenied.userMem⟩ :=
  c1_not_allowed_pass_through envDenied (some (.addr 77)) rfl

lemma readMem_length (m : Nat → Nat) (a n : Nat) : (readMem m a n).length = n := by
  simp [readMem]

/-- Reading back a staged buffer returns exactly the staged bytes. -/
lemma readMem_writeBytes (m : Nat → Nat) (a : Nat) (d : List Nat) :
    readMem (writeBytes m a d) a d.length = d := by
  apply List.ext_getElem (by simp [readMem])
  intro i h1 h2
  simp only [readMem, List.getElem_map, List.getElem_range, writeBytes]
  rw [if_pos ⟨Nat.le_add_right a i, by omega⟩]
  have hia : a + i - a = i := by omega
  rw [hia, List.getD_eq_getElem d 0 h2]

/-- C2: with interception enabled, an allow-listed caller, a successful
read of the target, and successful staging, a target equal byte-for-byte
to the trigger "/system/bin/su" is rewritten — for execute to the
privileged helper path with escalation, for check/stat to "/system/bin/sh"
without escalation, the staged buffer holding exactly those bytes — while
any target differing in even one byte is passed through untouched. -/
theorem c2_trigger_exact_match (env : KernelEnv) (a : Nat) (bytes : List Nat)
    (hen : env.sucompat_non_kp = true)
    (hal : env.allow_uid env.uid = true)
    (hw : env.stackWriteOk = true)
    (hrd : ksu_copy_from_user_retry env (.addr a) (su_arr.length + 1) = some bytes) :
    (((bytes.set su_arr.length 0).take su_arr.length = su_arr) →
      (ksu_handle_faccessat env (some (.addr a)) =
        ⟨0, some (.addr (env.stackPtr - sh_path_arr.length)), false,
          writeBytes env.userMem (env.stackPtr - sh_path_arr.length) sh_path_arr⟩ ∧
       ksu_handle_stat env (some (.addr a)) =
        ⟨0, some (.addr (env.stackPtr - sh_path_arr.length)), false,
          writeBytes env.userMem (env.stackPtr - sh_path_arr.length) sh_path_arr⟩ ∧
       ksu_handle_execve_sucompat env (some (.addr a)) =
        ⟨0, some (.addr (env.stackPtr - ksud_path_arr.length)), true,
          writeBytes env.userMem (env.stackPtr - ksud_path_arr.length) ksud_path_arr⟩ ∧
       readMem (ksu_handle_stat env (some (.addr a))).userMem
         (env.stackPtr - sh_path_arr.length) sh_path_arr.length = sh_path_arr ∧
       readMem (ksu_handle_execve_sucompat env (some (.addr a))).userMem
         (env.stackPtr - ksud_path_arr.length) ksud_path_arr.length = ksud_path_arr)) ∧
    (((bytes.set su_arr.length 0).take su_arr.length ≠ su_arr) →
      (ksu_handle_faccessat env (some (.addr a)) = ⟨0, some (.addr a), false, env.userMem⟩ ∧
       ksu_handle_stat env (some (.addr a)) = ⟨0, some (.addr a), false, env.userMem⟩ ∧
       ksu_handle_execve_sucompat env (some (.addr a)) =
         ⟨0, some (.addr a), false, env.userMem⟩)) := by
  constructor
  · intro heq
    refine ⟨?_, ?_, ?_, ?_, ?_⟩ <;>
      simp [ksu_handle_faccessat, ksu_handle_stat, ksu_handle_execve_sucompat,
        ksu_sucompat_common, hen, hal, hrd, heq, sh_user_path, ksud_user_path,
        userspace_stack_buffer, hw, readMem_writeBytes]
  · intro hne
    refine ⟨?_, ?_, ?_⟩ <;>
      simp [ksu_handle_faccessat, ksu_handle_stat, ksu_handle_execve_sucompat,
        ksu_sucompat_common, hen, hal, hrd, hne]

/-- A concrete environment: allow-listed caller, "/system/bin/su" stored at
user address 256, all copies succeeding. -/
def envMatch : KernelEnv :=
  { sucompat_non_kp := true
    allow_uid := fun u => u == 2000
    uid := 2000
    userMem := fun x => su_arr.getD (x - 256) 0
    nofaultOk := fun _ _ => true
    slowOk := fun _ _ => true
    stackWriteOk := true
    stackPtr := 8192 }

/-- C2 witness: the trigger path at address 256 is rewritten for the stat
handler of `envMatch`. -/
theorem c2_trigger_exact_match_witness :
    ksu_handle_stat envMatch (some (.addr 256)) =
      ⟨0, some (.addr (envMatch.stackPtr - sh_path_arr.length)), false,
        writeBytes envMatch.userMem (envMatch.stackPtr - sh_path_arr.length) sh_path_arr⟩ :=
  ((c2_trigger_exact_match envMatch 256
      (readMem envMatch.userMem 256 (su_arr.length + 1))
      rfl rfl rfl rfl).1 (by decide)).2.1

/-- C3: the read of the caller's target is attempted first with the fast
fault-tolerant copy and only on its failure does the slow guaranteed copy
run; and when both fail, `ksu_sucompat_common` returns 0 and leaves the
target pointer (and user memory) unmodified — the fault is swallowed. -/
theorem c3_read_fault_swallowed :
    (∀ (env : KernelEnv) (p : UPtr) (n : Nat) (bs : List Nat),
        ksu_copy_from_user_nofault env p n = some bs →
        ksu_copy_from_user_retry env p n = some bs) ∧
    (∀ (env : KernelEnv) (p : UPtr) (n : Nat),
        ksu_copy_from_user_nofault env p n = none →
        ksu_copy_from_user_retry env p n = copy_from_user env p n) ∧
    (∀ (env : KernelEnv) (fp : UPtr) (escalate : Bool),
        ksu_copy_from_user_retry env fp (su_arr.length + 1) = none →
        ksu_sucompat_common env (some fp) escalate =
          ⟨0, some fp, false, env.userMem⟩) := by
  refine ⟨?_, ?_, ?_⟩
  · intro env p n bs h
    simp [ksu_copy_from_user_retry, h]
  · intro env p n h
    simp [ksu_copy_from_user_retry, h]
  · intro env fp escalate h
    simp [ksu_sucompat_common, h]

/-- A concrete environment in which both user-copy paths fault. -/
def envFaulty : KernelEnv :=
  { sucompat_non_kp := true
    allow_uid := fun _ => true
    uid := 2000
    userMem := fun _ => 0
    nofaultOk := fun _ _ => false
    slowOk := fun _ _ => false
    stackWriteOk := true
    stackPtr := 8192 }

/-- C3 witness: in `envFaulty` the retry falls back to the slow path and the
handler passes through. -/
theorem c3_read_fault_swallowed_witness :
    ksu_copy_from_user_retry envFaulty (.addr 5) 16 =
      copy_from_user envFaulty (.addr 5) 16 ∧
    ksu_sucompat_common envFaulty (some (.addr 5)) true =
      ⟨0, some (.addr 5), false, envFaulty.userMem⟩ :=
  ⟨c3_read_fault_swallowed.2.1 envFaulty (.addr 5) 16 rfl,
   c3_read_fault_swallowed.2.2 envFaulty (.addr 5) true rfl⟩

/-- C10: when an allow-listed caller's target matches the trigger but the
`copy_to_user` inside `userspace_stack_buffer` fails, the target pointer is
overwritten with NULL (not left pointing at the original path), on the
check/stat paths and on the execute path alike. -/
theorem c10_staging_failure_writes_null (env : KernelEnv) (a : Nat) (bytes : List Nat)
    (hen : env.sucompat_non_kp = true)
    (hal : env.allow_uid env.uid = true)
    (hw : env.stackWriteOk = false)
    (hrd : ksu_copy_from_user_retry env (.addr a) (su_arr.length + 1) = some bytes)
    (heq : (bytes.set su_arr.length 0).take su_arr.length = su_arr) :
    ksu_handle_faccessat env (some (.addr a)) = ⟨0, some .null, false, env.userMem⟩ ∧
    ksu_handle_stat env (some (.addr a)) = ⟨0, some .null, false, env.userMem⟩ ∧
    ksu_handle_execve_sucompat env (some (.addr a)) =
      ⟨0, some .null, true, env.userMem⟩ := by
  refine ⟨?_, ?_, ?_⟩ <;>
    simp [ksu_handle_faccessat, ksu_handle_stat, ksu_handle_execve_sucompat,
      ksu_sucompat_common, hen, hal, hrd, heq, sh_user_path, ksud_user_path,
      userspace_stack_buffer, hw]

/-- `envMatch` with the stack-staging copy failing. -/
def envMatchNoStage : KernelEnv :=
  { envMatch with stackWriteOk := false }

/-- C10 witness: staging failure at a concrete matching input yields a NULL
target pointer. -/
theorem c10_staging_failure_writes_null_witness :
    ksu_handle_stat envMatchNoStage (some (.addr 256)) =
      ⟨0, some .null, false, envMatchNoStage.userMem⟩ :=
  (c10_staging_failure_writes_null envMatchNoStage 256
      (readMem envMatchNoStage.userMem 256 (su_arr.length + 1))
      rfl rfl rfl rfl (by decide)).2.1

end Sucompat

namespace Susfs

/-- Result of a successful `kern_path` resolution: the filesystem type name
(`p.mnt->mnt_sb->s_type->name`), the resolved inode identity (`none` when
`d_inode(p.dentry)` is NULL), and the backing mount's `mnt_group_id`
(`real_mount(p.mnt)->mnt_group_id`; 0 means no peer group). -/
structure ResolveInfo where
  fsType : List Nat
  ino : Option Nat
  mnt_group_id : Nat
deriving DecidableEq, Repr

/-- The filesystem environment of the registration calls: `kern_path`
resolution (`none` = lookup failure) and the platform device-identifier
decoder (`huge_decode_dev`/`new_decode_dev`/`old_decode_dev`, from
`kdev_t.h`, external to these sources). -/
structure FsEnv where
  kern_path : List Nat → Option ResolveInfo
  decode_dev : Nat → Nat

/-- Modelled from the spec: `INODE_STATE_SUS_PATH`, the path-concealment
bit OR-ed into `inode->i_state`; `include/linux/susfs.h` defining it is not
among the sources, the spec calls it only "a concealment bit", so a
dedicated high bit is used. -/
def INODE_STATE_SUS_PATH : Nat := 2 ^ 25

/-- Modelled from the spec: `INODE_STATE_SUS_MOUNT`, the mount-concealment
bit, a bit distinct from `INODE_STATE_SUS_PATH` (same missing header). -/
def INODE_STATE_SUS_MOUNT : Nat := 2 ^ 26

/-- Modelled from the spec: `SUSFS_MAX_LEN_PATHNAME`, the compile-time
maximum pathname length ("pathnames bounded at a compile-time maximum
length"); the header defining it is not among the sources. -/
def SUSFS_MAX_LEN_PATHNAME : Nat := 256

/-- Modelled from the spec: `DEFAULT_SUS_MNT_GROUP_ID`, the "reserved
high-value threshold" for synthetic mount peer-group identifiers; the
header defining it is not among the sources. -/
def DEFAULT_SUS_MNT_GROUP_ID : Nat := 1000

/-- Pointwise update of a per-inode state map. -/
def updMap (m : Nat → Nat) (k v : Nat) : Nat → Nat :=
  fun x => if x = k then v else m x

/-- The `"tmpfs"` filesystem type name. -/
def tmpfsBytes : List Nat := Sucompat.strBytes "tmpfs"

/-- The `"fuse"` filesystem type name. -/
def fuseBytes : List Nat := Sucompat.strBytes "fuse"

/-- `susfs_update_sus_path_inode`: resolve the pathname, reject the
denylisted filesystem types `"tmpfs"` and `"fuse"` and a NULL inode, and
otherwise OR `INODE_STATE_SUS_PATH` into `i_state` only when it is not
already set. Returns the updated per-inode `i_state` map and the `int`
return value (0 success, 1 failure). -/
def susfs_update_sus_path_inode (env : FsEnv) (istate : Nat → Nat)
    (target_pathname : List Nat) : (Nat → Nat) × Nat :=
  match env.kern_path target_pathname with
  | none => (istate, 1)
  | some p =>
    if p.fsType = tmpfsBytes ∨ p.fsType = fuseBytes then (istate, 1)
    else
      match p.ino with
      | none => (istate, 1)
      | some i =>
        if (istate i) &&& INODE_STATE_SUS_PATH = 0 then
          (updMap istate i ((istate i) ||| INODE_STATE_SUS_PATH), 0)
        else (istate, 0)

/-- `struct st_susfs_sus_path` and the `st_susfs_sus_path_hlist` entries:
a target inode number and a target pathname. -/
structure SusPathInfo where
  target_ino : Nat
  target_pathname : List Nat
deriving DecidableEq, Repr

/-- The `hash_for_each_safe` scan of `susfs_add_sus_path`: `hash_del` the
first entry whose stored pathname strcmp-equals `pn`, then `break`. -/
def removeFirstPath : List SusPathInfo → List Nat → List SusPathInfo
  | [], _ => []
  | e :: rest, pn =>
    if e.target_pathname = pn then rest else e :: removeFirstPath rest pn

/-- Whether some registry entry carries pathname `pn`. -/
def anyPath (l : List SusPathInfo) (pn : List Nat) : Bool :=
  l.any (fun e => e.target_pathname == pn)

/-- `susfs_add_sus_path`: copy the user record (`copyOk` models the
`copy_from_user` outcome), delete any prior entry with the same pathname,
allocate (`kmallocOk` models `kmalloc`), `strncpy` the pathname into the
new entry (bounded at `SUSFS_MAX_LEN_PATHNAME - 1`), apply the concealment
bit, and only then commit the entry (`hash_add` keyed by `target_ino`,
bucket order abstracted to insertion at the front of one list). Returns
the new `i_state` map, the new registry and the `int` return value. -/
def susfs_add_sus_path (env : FsEnv) (istate : Nat → Nat)
    (hl : List SusPathInfo) (info : SusPathInfo) (copyOk kmallocOk : Bool) :
    (Nat → Nat) × List SusPathInfo × Nat :=
  if !copyOk then (istate, hl, 1)
  else
    let hl1 := removeFirstPath hl info.target_pathname
    if !kmallocOk then (istate, hl1, 1)
    else
      let stored := info.target_pathname.take (SUSFS_MAX_LEN_PATHNAME - 1)
      let r := susfs_update_sus_path_inode env istate stored
      if r.2 = 0 then (r.1, ⟨info.target_ino, stored⟩ :: hl1, 0)
      else (istate, hl1, 1)

/-- `struct st_susfs_sus_mount`: a target pathname and a target device
identifier (the wire representation before decoding). -/
structure SusMountInfo where
  target_pathname : List Nat
  target_dev : Nat
deriving DecidableEq, Repr

/-- `susfs_update_sus_mount_inode`: resolve the pathname; on lookup failure
log and return; refuse to mark when the backing mount has a peer group id
strictly between 0 and `DEFAULT_SUS_MNT_GROUP_ID`; otherwise OR
`INODE_STATE_SUS_MOUNT` into `i_state` only when not already set. Returns
the updated per-inode `i_state` map (the function is `void`). -/
def susfs_update_sus_mount_inode (env : FsEnv) (istate : Nat → Nat)
    (target_pathname : List Nat) : Nat → Nat :=
  match env.kern_path target_pathname with
  | none => istate
  | some p =>
    if 0 < p.mnt_group_id ∧ p.mnt_group_id < DEFAULT_SUS_MNT_GROUP_ID then istate
    else
      match p.ino with
      | none => istate
      | some i =>
        if (istate i) &&& INODE_STATE_SUS_MOUNT = 0 then
          updMap istate i ((istate i) ||| INODE_STATE_SUS_MOUNT)
        else istate

/-- The in-place `memcpy` of `susfs_add_sus_mount`'s scan: overwrite the
first entry whose pathname strcmp-equals the new record's pathname. -/
def replaceFirstMount : List SusMountInfo → SusMountInfo → List SusMountInfo
  | [], _ => []
  | e :: rest, info =>
    if e.target_pathname = info.target_pathname then info :: rest
    else e :: replaceFirstMount rest info

/-- Whether some mount-registry entry carries pathname `pn`. -/
def anyMountPath (l : List SusMountInfo) (pn : List Nat) : Bool :=
  l.any (fun e => e.target_pathname == pn)

/-- `susfs_add_sus_mount`: copy the user record, decode the device
identifier, scan `LH_SUS_MOUNT` for an entry with the same pathname — if
found overwrite it in place and re-apply concealment, otherwise allocate
and append a new entry (`list_add_tail`) after applying concealment.
Returns the new `i_state` map, the new registry and the `int` return. -/
def susfs_add_sus_mount (env : FsEnv) (istate : Nat → Nat)
    (ml : List SusMountInfo) (info0 : SusMountInfo) (copyOk kmallocOk : Bool) :
    (Nat → Nat) × List SusMountInfo × Nat :=
  if !copyOk then (istate, ml, 1)
  else
    let info : SusMountInfo := ⟨info0.target_pathname, env.decode_dev info0.target_dev⟩
    if anyMountPath ml info.target_pathname then
      (susfs_update_sus_mount_inode env istate info.target_pathname,
       replaceFirstMount ml info, 0)
    else if !kmallocOk then (istate, ml, 1)
    else
      (susfs_update_sus_mount_inode env istate info.target_pathname,
       ml ++ [info], 0)

/-- `struct st_susfs_try_umount`: a target pathname and an unmount mode. -/
structure TryUmountInfo where
  target_pathname : List Nat
  mnt_mode : Nat
deriving DecidableEq, Repr

/-- Which log line `susfs_add_try_umount` emits: the duplicate case logs a
distinct "is already created in LH_TRY_UMOUNT_PATH" error. -/
inductive UmountAddLog where
  | copyFault : UmountAddLog
  | alreadyPresent : UmountAddLog
  | noMemory : UmountAddLog
  | added : UmountAddLog
deriving DecidableEq, Repr

/-- Whether some ledger entry carries pathname `pn`. -/
def anyUmountPath (l : List TryUmountInfo) (pn : List Nat) : Bool :=
  l.any (fun e => e.target_pathname == pn)

/-- `susfs_add_try_umount`: copy the user record, reject a pathname already
present in `LH_TRY_UMOUNT_PATH` (return 1, logging the distinct
already-present error, overwriting nothing), allocate, and append the new
record (`list_add_tail`). Returns the new ledger, the `int` return value
and the emitted log line. -/
def susfs_add_try_umount (ul : List TryUmountInfo) (info : TryUmountInfo)
    (copyOk kmallocOk : Bool) : List TryUmountInfo × Nat × UmountAddLog :=
  if !copyOk then (ul, 1, .copyFault)
  else if anyUmountPath ul info.target_pathname then (ul, 1, .alreadyPresent)
  else if !kmallocOk then (ul, 1, .noMemory)
  else (ul ++ [info], 0, .added)

/-- Modelled from the spec: `TRY_UMOUNT_DEFAULT`, the graceful unmount
mode (value from the missing `include/linux/susfs.h`). -/
def TRY_UMOUNT_DEFAULT : Nat := 0

/-- Modelled from the spec: `TRY_UMOUNT_DETACH`, the forced-detach mode
(same missing header). -/
def TRY_UMOUNT_DETACH : Nat := 1

/-- Modelled from the spec: `MNT_DETACH`, the lazy-detach umount flag from
the kernel uapi headers (not among the sources). -/
def MNT_DETACH : Nat := 2

/-- One `ksu_try_umount(pathname, check_mnt, flags, uid)` call issued
during replay. -/
structure UmountOp where
  target_pathname : List Nat
  check_mnt : Bool
  flags : Nat
  uid : Nat
deriving DecidableEq, Repr

/-- The per-record body of `susfs_try_umount`'s loop: mode
`TRY_UMOUNT_DEFAULT` unmounts with flags 0, `TRY_UMOUNT_DETACH` with
`MNT_DETACH`, and any other mode is logged and skipped. -/
def try_umount_emit (uid : Nat) (e : TryUmountInfo) : Option UmountOp :=
  if e.mnt_mode = TRY_UMOUNT_DEFAULT then some ⟨e.target_pathname, false, 0, uid⟩
  else if e.mnt_mode = TRY_UMOUNT_DETACH then
    some ⟨e.target_pathname, false, MNT_DETACH, uid⟩
  else none

/-- `susfs_try_umount`: `list_for_each_entry_reverse` over the ledger —
the most recently appended record is visited first. Returns the sequence
of `ksu_try_umount` calls issued. -/
def susfs_try_umount : List TryUmountInfo → Nat → List UmountOp
  | [], _ => []
  | e :: rest, uid => susfs_try_umount rest uid ++ (try_umount_emit uid e).toList

end Susfs

namespace Susfs

lemma and_two_pow_ne_zero_iff (x n : Nat) :
    x &&& 2 ^ n ≠ 0 ↔ x.testBit n = true := by
  rw [Nat.and_two_pow]
  cases h : x.testBit n <;> simp [h]

lemma or_two_pow_and_ne_zero (x n : Nat) : (x ||| 2 ^ n) &&& 2 ^ n ≠ 0 := by
  rw [and_two_pow_ne_zero_iff, Nat.testBit_lor, Nat.testBit_two_pow_self]
  simp

lemma removeFirstPath_of_anyPath_false (hl : List SusPathInfo) (pn : List Nat)
    (h : anyPath hl pn = false) : removeFirstPath hl pn = hl := by
  induction hl with
  | nil => rfl
  | cons e rest ih =>
    unfold anyPath at h ih
    simp only [List.any_cons, Bool.or_eq_false_iff] at h
    have hne : e.target_pathname ≠ pn := by
      intro hEq
      rw [hEq] at h
      simp at h
    unfold removeFirstPath
    rw [if_neg hne, ih h.2]

lemma countP_path_eq_zero (hl : List SusPathInfo) (pn : List Nat)
    (h : anyPath hl pn = false) :
    hl.countP (fun e => e.target_pathname == pn) = 0 := by
  refine List.countP_eq_zero.mpr ?_
  intro e he
  exact (List.any_eq_false.mp h) e he

/-- Behaviour of `susfs_update_sus_path_inode` on a resolvable pathname of
an allowed filesystem type with a live inode: it succeeds, the inode's
concealment bit is set afterwards, and it is a no-op when the bit was
already set. -/
lemma update_sus_path_inode_spec (env : FsEnv) (istate : Nat → Nat)
    (pn : List Nat) (r : ResolveInfo) (i : Nat)
    (hres : env.kern_path pn = some r)
    (hfs : ¬(r.fsType = tmpfsBytes ∨ r.fsType = fuseBytes))
    (hino : r.ino = some i) :
    (susfs_update_sus_path_inode env istate pn).2 = 0 ∧
    ((susfs_update_sus_path_inode env istate pn).1 i) &&& INODE_STATE_SUS_PATH ≠ 0 ∧
    ((istate i) &&& INODE_STATE_SUS_PATH ≠ 0 →
      (susfs_update_sus_path_inode env istate pn).1 = istate) := by
  unfold susfs_update_sus_path_inode
  rw [hres]
  simp only [hfs, if_false, hino]
  by_cases hbit : (istate i) &&& INODE_STATE_SUS_PATH = 0
  · rw [if_pos hbit]
    refine ⟨rfl, ?_, ?_⟩
    · simp only [updMap, if_pos rfl]
      exact or_two_pow_and_ne_zero (istate i) 25
    · intro h
      exact absurd hbit h
  · rw [if_neg hbit]
    exact ⟨rfl, hbit, fun _ => rfl⟩

end Susfs

namespace Susfs

/-- C4: registering the same path-concealment pathname twice (both calls
succeeding) leaves exactly one live record for that pathname, the second
call removes the prior record before inserting an identical replacement
(registry and inode-state maps are unchanged by the second call), and the
concealment bit is set on the resolved inode — re-registration is
idempotent on both registry and object state. -/
theorem c4_sus_path_reregistration_idempotent
    (env : FsEnv) (istate : Nat → Nat) (hl : List SusPathInfo)
    (info : SusPathInfo) (r : ResolveInfo) (i : Nat)
    (hlen : info.target_pathname.length < SUSFS_MAX_LEN_PATHNAME - 1)
    (hres : env.kern_path info.target_pathname = some r)
    (hfs : ¬(r.fsType = tmpfsBytes ∨ r.fsType = fuseBytes))
    (hino : r.ino = some i)
    (hfresh : anyPath hl info.target_pathname = false) :
    (susfs_add_sus_path env istate hl info true true).2.2 = 0 ∧
    (susfs_add_sus_path env
        (susfs_add_sus_path env istate hl info true true).1
        (susfs_add_sus_path env istate hl info true true).2.1 info true true).2.2 = 0 ∧
    (susfs_add_sus_path env
        (susfs_add_sus_path env istate hl info true true).1
        (susfs_add_sus_path env istate hl info true true).2.1 info true true).2.1 =
      (susfs_add_sus_path env istate hl info true true).2.1 ∧
    (susfs_add_sus_path env
        (susfs_add_sus_path env istate hl info true true).1
        (susfs_add_sus_path env istate hl info true true).2.1 info true true).1 =
      (susfs_add_sus_path env istate hl info true true).1 ∧
    (susfs_add_sus_path env istate hl info true true).2.1.countP
      (fun e => e.target_pathname == info.target_pathname) = 1 ∧
    ((susfs_add_sus_path env istate hl info true true).1 i) &&&
      INODE_STATE_SUS_PATH ≠ 0 := by
  have hst : info.target_pathname.take (SUSFS_MAX_LEN_PATHNAME - 1) =
      info.target_pathname := List.take_of_length_le (Nat.le_of_lt hlen)
  have hrm : removeFirstPath hl info.target_pathname = hl :=
    removeFirstPath_of_anyPath_false hl info.target_pathname hfresh
  have hu := update_sus_path_inode_spec env istate info.target_pathname r i hres hfs hino
  have hs1 : susfs_add_sus_path env istate hl info true true =
      ((susfs_update_sus_path_inode env istate info.target_pathname).1,
       ⟨info.target_ino, info.target_pathname⟩ :: hl, 0) := by
    unfold susfs_add_sus_path
    simp only [Bool.not_true, Bool.false_eq_true, if_false, hst, hrm, hu.1, if_pos]
  have hu2 := update_sus_path_inode_spec env
    (susfs_update_sus_path_inode env istate info.target_pathname).1
    info.target_pathname r i hres hfs hino
  have hrm2 : removeFirstPath
      (⟨info.target_ino, info.target_pathname⟩ :: hl) info.target_pathname = hl := by
    unfold removeFirstPath
    rw [if_pos rfl]
  have hs2 : susfs_add_sus_path env
      (susfs_update_sus_path_inode env istate info.target_pathname).1
      (⟨info.target_ino, info.target_pathname⟩ :: hl) info true true =
      ((susfs_update_sus_path_inode env istate info.target_pathname).1,
       ⟨info.target_ino, info.target_pathname⟩ :: hl, 0) := by
    unfold susfs_add_sus_path
    simp only [Bool.not_true, Bool.false_eq_true, if_false, hst, hrm2, hu2.1, if_pos]
    rw [hu2.2.2 hu.2.1]
  rw [hs1]
  simp only [hs2]
  refine ⟨trivial, trivial, trivial, trivial, ?_, hu.2.1⟩
  rw [List.countP_cons_of_pos _ _ (by simp),
    countP_path_eq_zero hl info.target_pathname hfresh]

/-- A concrete filesystem environment resolving one pathname to an inode
on an `erofs` filesystem. -/
def pnGood : List Nat := Sucompat.strBytes "/system/app/Sus"

/-- See `pnGood`. -/
def envPath : FsEnv :=
  { kern_path := fun pn =>
      if pn == pnGood then some ⟨Sucompat.strBytes "erofs", some 42, 0⟩ else none
    decode_dev := fun d => d }

/-- C4 witness: double registration of `pnGood` in `envPath` from the empty
registry leaves one record and an unchanged second state. -/
theorem c4_sus_path_reregistration_idempotent_witness :
    (susfs_add_sus_path envPath (fun _ => 0) [] ⟨42, pnGood⟩ true true).2.1.countP
      (fun e => e.target_pathname == pnGood) = 1 ∧
    ((susfs_add_sus_path envPath (fun _ => 0) [] ⟨42, pnGood⟩ true true).1 42) &&&
      INODE_STATE_SUS_PATH ≠ 0 :=
  ⟨(c4_sus_path_reregistration_idempotent envPath (fun _ => 0) [] ⟨42, pnGood⟩
      ⟨Sucompat.strBytes "erofs", some 42, 0⟩ 42 (by decide) (by decide) (by decide)
      rfl rfl).2.2.2.2.1,
   (c4_sus_path_reregistration_idempotent envPath (fun _ => 0) [] ⟨42, pnGood⟩
      ⟨Sucompat.strBytes "erofs", some 42, 0⟩ 42 (by decide) (by decide) (by decide)
      rfl rfl).2.2.2.2.2⟩

end Susfs

namespace Susfs

/-- A filesystem environment in which no pathname resolves. -/
def envNoResolve : FsEnv :=
  { kern_path := fun _ => none
    decode_dev := fun d => d }

/-- A previously registered record used by the C5 counterexample. -/
def infoA : SusPathInfo := ⟨7, Sucompat.strBytes "/data/adb/modules"⟩

/-- C5 counterexample: with `infoA` already registered, a re-registration
of the same pathname that fails (lookup failure) returns 1 but leaves the
registry empty — not "exactly what it was before the call": the dedup scan
removed the prior record before the concealment step failed. -/
theorem c5_counterexample_failed_call_mutates :
    (susfs_add_sus_path envNoResolve (fun _ => 0) [infoA] infoA true true).2.2 = 1 ∧
    (susfs_add_sus_path envNoResolve (fun _ => 0) [infoA] infoA true true).2.1 = [] ∧
    [infoA] ≠ ([] : List SusPathInfo) := by
  refine ⟨?_, ?_, ?_⟩ <;> decide

/-- C5 (amended): lookup failure, a denylisted filesystem type and a null
resolved inode all return the same generic failure code 1, set no
concealment bit and commit no record; the registry afterwards is the prior
registry with any prior record for the same pathname removed by the dedup
scan — hence exactly the prior state whenever the pathname was not already
registered, but not when it was. -/
theorem c5_failure_uniform_and_uncommitted
    (env : FsEnv) (istate : Nat → Nat) (hl : List SusPathInfo)
    (info : SusPathInfo) :
    ((env.kern_path (info.target_pathname.take (SUSFS_MAX_LEN_PATHNAME - 1)) = none →
        susfs_add_sus_path env istate hl info true true =
          (istate, removeFirstPath hl info.target_pathname, 1)) ∧
     (∀ r, env.kern_path (info.target_pathname.take (SUSFS_MAX_LEN_PATHNAME - 1)) =
          some r → (r.fsType = tmpfsBytes ∨ r.fsType = fuseBytes) →
        susfs_add_sus_path env istate hl info true true =
          (istate, removeFirstPath hl info.target_pathname, 1)) ∧
     (∀ r, env.kern_path (info.target_pathname.take (SUSFS_MAX_LEN_PATHNAME - 1)) =
          some r → r.ino = none →
        susfs_add_sus_path env istate hl info true true =
          (istate, removeFirstPath hl info.target_pathname, 1))) ∧
    (anyPath hl info.target_pathname = false →
      removeFirstPath hl info.target_pathname = hl) := by
  refine ⟨⟨?_, ?_, ?_⟩, removeFirstPath_of_anyPath_false hl info.target_pathname⟩
  · intro hres
    simp [susfs_add_sus_path, susfs_update_sus_path_inode, hres]
  · intro r hres hfs
    simp [susfs_add_sus_path, susfs_update_sus_path_inode, hres, hfs]
  · intro r hres hino
    by_cases hfs : r.fsType = tmpfsBytes ∨ r.fsType = fuseBytes <;>
      simp [susfs_add_sus_path, susfs_update_sus_path_inode, hres, hino, hfs]

/-- C5 witness: a failing registration in `envNoResolve` from the empty
registry returns 1 and leaves everything unchanged. -/
theorem c5_failure_uniform_and_uncommitted_witness :
    susfs_add_sus_path envNoResolve (fun _ => 0) [] infoA true true =
      ((fun _ => 0), removeFirstPath [] infoA.target_pathname, 1) :=
  (c5_failure_uniform_and_uncommitted envNoResolve (fun _ => 0) [] infoA).1.1 rfl

lemma replaceFirstMount_map_pathname (ml : List SusMountInfo) (info : SusMountInfo) :
    (replaceFirstMount ml info).map (fun e => e.target_pathname) =
      ml.map (fun e => e.target_pathname) := by
  induction ml with
  | nil => rfl
  | cons e rest ih =>
    unfold replaceFirstMount
    by_cases h : e.target_pathname = info.target_pathname
    · rw [if_pos h]
      simp [h]
    · rw [if_neg h]
      simp [ih]

lemma not_mem_map_of_anyMountPath_false (ml : List SusMountInfo) (pn : List Nat)
    (h : anyMountPath ml pn = false) :
    pn ∉ ml.map (fun e => e.target_pathname) := by
  intro hmem
  obtain ⟨e, he, hpe⟩ := List.mem_map.mp hmem
  have hne := (List.any_eq_false.mp h) e he
  rw [hpe] at hne
  simp at hne

/-- C6: each mount registration preserves distinctness of the registry's
pathnames — a pathname already present is overwritten in place with the
decoded device identifier (registry length unchanged), and only a pathname
not yet present appends an entry (length grows by one on a successful
first registration). -/
theorem c6_mount_registry_no_duplicate_pathnames
    (env : FsEnv) (istate : Nat → Nat) (ml : List SusMountInfo)
    (info0 : SusMountInfo) (copyOk kmallocOk : Bool) :
    ((ml.map (fun e => e.target_pathname)).Nodup →
      (((susfs_add_sus_mount env istate ml info0 copyOk kmallocOk).2.1).map
        (fun e => e.target_pathname)).Nodup) ∧
    (anyMountPath ml info0.target_pathname = true →
      (susfs_add_sus_mount env istate ml info0 copyOk kmallocOk).2.1.length =
        ml.length) ∧
    (anyMountPath ml info0.target_pathname = false → copyOk = true →
      kmallocOk = true →
      (susfs_add_sus_mount env istate ml info0 copyOk kmallocOk).2.1.length =
        ml.length + 1) ∧
    (anyMountPath ml info0.target_pathname = true → copyOk = true →
      (susfs_add_sus_mount env istate ml info0 copyOk kmallocOk).2.1 =
        replaceFirstMount ml
          ⟨info0.target_pathname, env.decode_dev info0.target_dev⟩) := by
  refine ⟨?_, ?_, ?_, ?_⟩
  · intro hnd
    cases copyOk with
    | false =>
      simp only [susfs_add_sus_mount, Bool.not_false, if_true]
      exact hnd
    | true =>
      by_cases hany : anyMountPath ml info0.target_pathname
      · simp [susfs_add_sus_mount, hany, replaceFirstMount_map_pathname]
        exact hnd
      · cases kmallocOk with
        | false =>
          simp [susfs_add_sus_mount, hany]
          exact hnd
        | true =>
          simp [susfs_add_sus_mount, hany]
          refine List.Nodup.append hnd (List.nodup_singleton _) ?_
          intro x hx hx2
          simp only [List.mem_singleton] at hx2
          subst hx2
          exact not_mem_map_of_anyMountPath_false ml info0.target_pathname
            (by simpa using hany) hx
  · intro hany
    cases copyOk with
    | false => simp [susfs_add_sus_mount]
    | true =>
      have : (replaceFirstMount ml
          ⟨info0.target_pathname, env.decode_dev info0.target_dev⟩).length =
          ml.length := by
        have := replaceFirstMount_map_pathname ml
          ⟨info0.target_pathname, env.decode_dev info0.target_dev⟩
        calc (replaceFirstMount ml _).length
            = ((replaceFirstMount ml _).map (fun e => e.target_pathname)).length := by
              rw [List.length_map]
          _ = (ml.map (fun e => e.target_pathname)).length := by rw [this]
          _ = ml.length := List.length_map _ _
      simp [susfs_add_sus_mount, hany, this]
  · intro hany hc hk
    subst hc
    subst hk
    simp [susfs_add_sus_mount, hany]
  · intro hany hc
    subst hc
    simp [susfs_add_sus_mount, hany]

/-- A concrete one-entry mount registry and a re-registration of its
pathname with a different device identifier. -/
def pnMnt : List Nat := Sucompat.strBytes "/vendor/odm"

/-- C6 witness: re-registering `pnMnt` keeps the registry at length one,
and a fresh registration grows the empty registry to length one. -/
theorem c6_mount_registry_no_duplicate_pathnames_witness :
    (susfs_add_sus_mount envNoResolve (fun _ => 0) [⟨pnMnt, 3⟩] ⟨pnMnt, 9⟩
        true true).2.1.length = 1 ∧
    (susfs_add_sus_mount envNoResolve (fun _ => 0) [] ⟨pnMnt, 9⟩
        true true).2.1.length = 1 :=
  ⟨(c6_mount_registry_no_duplicate_pathnames envNoResolve (fun _ => 0) [⟨pnMnt, 3⟩]
      ⟨pnMnt, 9⟩ true true).2.1 (by decide),
   (c6_mount_registry_no_duplicate_pathnames envNoResolve (fun _ => 0) []
      ⟨pnMnt, 9⟩ true true).2.2.1 rfl rfl rfl⟩

/-- C7: a mount whose peer-group identifier is strictly between 0 and
`DEFAULT_SUS_MNT_GROUP_ID` is never marked `INODE_STATE_SUS_MOUNT`
(`susfs_update_sus_mount_inode` leaves the inode states untouched), while
a mount with identifier 0 or at/above the threshold has the mark applied
to its resolved inode. -/
theorem c7_peer_group_threshold
    (env : FsEnv) (istate : Nat → Nat) (pn : List Nat) (r : ResolveInfo)
    (hres : env.kern_path pn = some r) :
    (0 < r.mnt_group_id → r.mnt_group_id < DEFAULT_SUS_MNT_GROUP_ID →
      susfs_update_sus_mount_inode env istate pn = istate) ∧
    ((r.mnt_group_id = 0 ∨ DEFAULT_SUS_MNT_GROUP_ID ≤ r.mnt_group_id) →
      ∀ i, r.ino = some i →
        (susfs_update_sus_mount_inode env istate pn i) &&&
          INODE_STATE_SUS_MOUNT ≠ 0) := by
  have hgate : ∀ g : Nat, (g = 0 ∨ DEFAULT_SUS_MNT_GROUP_ID ≤ g) →
      ¬(0 < g ∧ g < DEFAULT_SUS_MNT_GROUP_ID) := by
    intro g hg ⟨ha, hb⟩
    rcases hg with h | h
    · omega
    · omega
  constructor
  · intro h1 h2
    simp only [susfs_update_sus_mount_inode, hres]
    rw [if_pos ⟨h1, h2⟩]
  · intro hg i hino
    simp only [susfs_update_sus_mount_inode, hres]
    rw [if_neg (hgate r.mnt_group_id hg), hino]
    dsimp only
    by_cases hbit : (istate i) &&& INODE_STATE_SUS_MOUNT = 0
    · rw [if_pos hbit]
      simp only [updMap, if_pos rfl]
      exact or_two_pow_and_ne_zero (istate i) 26
    · rw [if_neg hbit]
      exact hbit

/-- An environment resolving every pathname to a mount with peer-group
identifier 5 (below the reserved threshold). -/
def envGid5 : FsEnv :=
  { kern_path := fun _ => some ⟨Sucompat.strBytes "ext4", some 42, 5⟩
    decode_dev := fun d => d }

/-- An environment resolving every pathname to a mount with no peer group
(identifier 0). -/
def envGid0 : FsEnv :=
  { kern_path := fun _ => some ⟨Sucompat.strBytes "ext4", some 42, 0⟩
    decode_dev := fun d => d }

/-- C7 witness: identifier 5 leaves the inode states untouched; identifier
0 applies the mark to inode 42. -/
theorem c7_peer_group_threshold_witness :
    susfs_update_sus_mount_inode envGid5 (fun _ => 0) pnMnt = (fun _ => 0) ∧
    (susfs_update_sus_mount_inode envGid0 (fun _ => 0) pnMnt 42) &&&
      INODE_STATE_SUS_MOUNT ≠ 0 :=
  ⟨(c7_peer_group_threshold envGid5 (fun _ => 0) pnMnt
      ⟨Sucompat.strBytes "ext4", some 42, 5⟩ rfl).1 (by decide) (by decide),
   (c7_peer_group_threshold envGid0 (fun _ => 0) pnMnt
      ⟨Sucompat.strBytes "ext4", some 42, 0⟩ rfl).2 (Or.inl rfl) 42 rfl⟩

end Susfs

namespace Susfs

/-- C8: registering a deferred-unmount pathname not yet in the ledger
succeeds (return 0) and appends the record; registering the same pathname
again — even with a different mode — fails with return 1 and the distinct
already-present log, overwriting and appending nothing, so the first
registration's mode is retained and the ledger length is unchanged. -/
theorem c8_try_umount_duplicate_rejected
    (ul : List TryUmountInfo) (info info2 : TryUmountInfo)
    (hpn : info2.target_pathname = info.target_pathname)
    (hfresh : anyUmountPath ul info.target_pathname = false) :
    susfs_add_try_umount ul info true true = (ul ++ [info], 0, .added) ∧
    susfs_add_try_umount (ul ++ [info]) info2 true true =
      (ul ++ [info], 1, .alreadyPresent) := by
  constructor
  · simp [susfs_add_try_umount, hfresh]
  · have hany : anyUmountPath (ul ++ [info]) info2.target_pathname = true := by
      unfold anyUmountPath
      rw [List.any_append]
      simp [hpn]
    simp [susfs_add_try_umount, hany]

/-- The pathname of the C8 witness. -/
def pnUm : List Nat := Sucompat.strBytes "/debug_ramdisk"

/-- C8 witness: first registration appends, second (different mode) is
rejected with the already-present error and an unchanged ledger. -/
theorem c8_try_umount_duplicate_rejected_witness :
    susfs_add_try_umount [] ⟨pnUm, 0⟩ true true = ([⟨pnUm, 0⟩], 0, .added) ∧
    susfs_add_try_umount [⟨pnUm, 0⟩] ⟨pnUm, 1⟩ true true =
      ([⟨pnUm, 0⟩], 1, .alreadyPresent) := by
  have h := c8_try_umount_duplicate_rejected [] ⟨pnUm, 0⟩ ⟨pnUm, 1⟩ rfl rfl
  simpa using h

/-- C9: ledger replay visits records in exactly reverse insertion order —
`susfs_try_umount` equals reverse-then-filterMap of the per-record emission;
insertions `[A, B, C]` are unmounted as `[C, B, A]`, default mode mapping
to flags 0 and detach mode to `MNT_DETACH`; a record with an unsupported
mode is skipped while replay continues over all remaining records. -/
theorem c9_replay_reverse_order :
    (∀ (ul : List TryUmountInfo) (uid : Nat),
        susfs_try_umount ul uid = ul.reverse.filterMap (try_umount_emit uid)) ∧
    (∀ (A B C : List Nat) (uid : Nat),
        susfs_try_umount [⟨A, TRY_UMOUNT_DEFAULT⟩, ⟨B, TRY_UMOUNT_DETACH⟩,
            ⟨C, TRY_UMOUNT_DEFAULT⟩] uid =
          [⟨C, false, 0, uid⟩, ⟨B, false, MNT_DETACH, uid⟩, ⟨A, false, 0, uid⟩]) ∧
    (∀ (A B C : List Nat) (uid m : Nat),
        m ≠ TRY_UMOUNT_DEFAULT → m ≠ TRY_UMOUNT_DETACH →
        susfs_try_umount [⟨A, TRY_UMOUNT_DEFAULT⟩, ⟨B, m⟩,
            ⟨C, TRY_UMOUNT_DETACH⟩] uid =
          [⟨C, false, MNT_DETACH, uid⟩, ⟨A, false, 0, uid⟩]) := by
  refine ⟨?_, ?_, ?_⟩
  · intro ul uid
    induction ul with
    | nil => rfl
    | cons e rest ih =>
      rw [susfs_try_umount, ih, List.reverse_cons, List.filterMap_append]
      congr 1
  · intro A B C uid
    simp [susfs_try_umount, try_umount_emit, TRY_UMOUNT_DEFAULT,
      TRY_UMOUNT_DETACH, MNT_DETACH]
  · intro A B C uid m hm1 hm2
    have hm1n : m ≠ 0 := hm1
    have hm2n : m ≠ 1 := hm2
    simp [susfs_try_umount, try_umount_emit, TRY_UMOUNT_DEFAULT,
      TRY_UMOUNT_DETACH, MNT_DETACH, hm1n, hm2n]

/-- C9 witness: a concrete three-entry ledger containing an unsupported
mode (7) replays in reverse order, skipping the unsupported record. -/
theorem c9_replay_reverse_order_witness :
    susfs_try_umount [⟨Sucompat.strBytes "/a", TRY_UMOUNT_DEFAULT⟩,
        ⟨Sucompat.strBytes "/b", 7⟩,
        ⟨Sucompat.strBytes "/c", TRY_UMOUNT_DETACH⟩] 1000 =
      [⟨Sucompat.strBytes "/c", false, MNT_DETACH, 1000⟩,
       ⟨Sucompat.strBytes "/a", false, 0, 1000⟩] :=
  c9_replay_reverse_order.2.2 (Sucompat.strBytes "/a") (Sucompat.strBytes "/b")
    (Sucompat.strBytes "/c") 1000 7 (by decide) (by decide)

end Susfs
